import Mathlib

/-!
Shallow embedding of the transport layer of the `python-scheduler` client
library, covering:

* `src/google/cloud/scheduler_v1beta1/services/cloud_scheduler/transports/base.py`
  (`CloudSchedulerTransport.__init__` and `_prep_wrapped_messages`);
* `src/google/cloud/scheduler_v1/services/cloud_scheduler/transports/grpc_asyncio.py`
  (`CloudSchedulerGrpcAsyncIOTransport.__init__`, the `grpc_channel` accessor and
  the eight stub property accessors).

Python floats in the policy table (0.1, 60.0, 1.3, 600.0) are embedded as exact
rationals (`ℚ`); all four are exactly representable in binary floating point or
only used as opaque configuration values, so nothing is lost.  Stateful Python
attributes become explicit state records; attribute mutation becomes state
passing.  Callable identity (`is`-identity of stub objects in Python) is
embedded by tagging every freshly constructed callable with a ghost counter
`fresh`, so two independently constructed callables always differ while the
cached callable compares equal to itself.

The async transport of `scheduler_v1` inherits `__init__` from its own
`base.py`, which is not among the shipped sources; the shipped
`scheduler_v1beta1/.../base.py` is the same generated constructor, so the one
embedded here (`baseInitT`) is used as the base constructor of the async
transport as well.
-/

set_option maxHeartbeats 1000000

namespace Scheduler

/-- The eight remote methods of the CloudScheduler service. -/
inductive MethodName where
  | listJobs
  | getJob
  | createJob
  | updateJob
  | deleteJob
  | pauseJob
  | resumeJob
  | runJob
deriving DecidableEq, Repr

/-- Failure kinds (`google.api_core.exceptions` classes as far as the transport
inspects them).  `serviceUnavailable` and `deadlineExceeded` are the two kinds
named in `_prep_wrapped_messages`; the remaining constructors stand for the
other kinds a call can fail with. -/
inductive ExcKind where
  | serviceUnavailable
  | deadlineExceeded
  | notFound
  | invalidArgument
  | permissionDenied
  | failedPrecondition
  | internalError
  | unknown
deriving DecidableEq, Repr

/-- `retries.if_exception_type(k₁, k₂, ...)`: the predicate holding exactly on
the listed failure kinds. -/
def if_exception_type (ks : List ExcKind) (k : ExcKind) : Bool :=
  k ∈ ks

/-- `retries.Retry(initial=..., maximum=..., multiplier=..., predicate=...)`.
The predicate is stored as the list of failure kinds handed to
`if_exception_type`, which is how every retry object in the source builds it. -/
structure Retry where
  initial : ℚ
  maximum : ℚ
  multiplier : ℚ
  predicate : List ExcKind
deriving DecidableEq, Repr

/-- The policy attached by `gapic_v1.method.wrap_method`: an optional retry and
a default timeout (the `client_info` argument carries no behaviour and is
omitted). -/
structure WrappedMethod where
  default_retry : Option Retry
  default_timeout : ℚ
deriving DecidableEq, Repr

/-- `CloudSchedulerTransport._prep_wrapped_messages` (base.py lines 101-178):
the per-method policy table, entry by entry. -/
def _prep_wrapped_messages : MethodName → WrappedMethod
  | .listJobs =>
      { default_retry := some
          { initial := 0.1, maximum := 60.0, multiplier := 1.3,
            predicate := [.serviceUnavailable, .deadlineExceeded] },
        default_timeout := 600.0 }
  | .getJob =>
      { default_retry := some
          { initial := 0.1, maximum := 60.0, multiplier := 1.3,
            predicate := [.serviceUnavailable, .deadlineExceeded] },
        default_timeout := 600.0 }
  | .createJob =>
      { default_retry := none, default_timeout := 600.0 }
  | .updateJob =>
      { default_retry := none, default_timeout := 600.0 }
  | .deleteJob =>
      { default_retry := some
          { initial := 0.1, maximum := 60.0, multiplier := 1.3,
            predicate := [.serviceUnavailable, .deadlineExceeded] },
        default_timeout := 600.0 }
  | .pauseJob =>
      { default_retry := some
          { initial := 0.1, maximum := 60.0, multiplier := 1.3,
            predicate := [.serviceUnavailable, .deadlineExceeded] },
        default_timeout := 600.0 }
  | .resumeJob =>
      { default_retry := some
          { initial := 0.1, maximum := 60.0, multiplier := 1.3,
            predicate := [.serviceUnavailable, .deadlineExceeded] },
        default_timeout := 600.0 }
  | .runJob =>
      { default_retry := none, default_timeout := 600.0 }

/-- Result of one attempt of a wrapped call. -/
inductive Outcome where
  | ok (v : Nat)
  | fail (k : ExcKind)
deriving DecidableEq, Repr

/-- Modelled from the spec: the retry loop of the Policy Wrapper (spec §4.3 and
§7(c)); the actual loop lives in `google.api_core.retry`, outside this
repository's sources.  `o n` is the outcome of attempt number `n` (0-based);
`budget` is the number of further attempts the deadline still allows.  The loop
resubmits after a failure whose kind satisfies the predicate, stops on success
or on a non-retryable failure, and surfaces a deadline-exceeded failure when
the budget is exhausted.  The second component is the total number of attempts
made. -/
def retryRun (pred : ExcKind → Bool) (o : Nat → Outcome) : Nat → Nat → Outcome × Nat
  | 0, i =>
      match o i with
      | .ok v => (.ok v, i + 1)
      | .fail k =>
          if pred k then (.fail .deadlineExceeded, i + 1) else (.fail k, i + 1)
  | b + 1, i =>
      match o i with
      | .ok v => (.ok v, i + 1)
      | .fail k =>
          if pred k then retryRun pred o b (i + 1) else (.fail k, i + 1)

/-- Modelled from the spec: invoking a stub wrapped by the Policy Wrapper
(spec §4.3).  With no retry policy there is exactly one attempt whose outcome
is returned unchanged; with a retry policy the retry loop runs under the
policy's predicate. -/
def invokeWrapped (w : WrappedMethod) (budget : Nat) (o : Nat → Outcome) :
    Outcome × Nat :=
  match w.default_retry with
  | none => (o 0, 1)
  | some r => retryRun (fun k => if_exception_type r.predicate k) o budget 0

/-- The Python `credentials` argument with its truthiness structure: `None`
(absent, falsy), the literal `False` the channel branch of the async
constructor assigns (falsy, but not `None`), or an actual credentials object
(truthy), identified by an opaque tag. -/
inductive PyCred where
  | noneCred
  | falseSentinel
  | given (c : Nat)
deriving DecidableEq, Repr

/-- Python truthiness of the `credentials` argument. -/
def PyCred.truthy : PyCred → Bool
  | .noneCred => false
  | .falseSentinel => false
  | .given _ => true

/-- Python truthiness of the `credentials_file` argument (an empty string is
falsy). -/
def fileTruthy : Option String → Bool
  | none => false
  | some f => decide (f ≠ "")

/-- The value `self._credentials` holds after the base constructor ran. -/
inductive ResolvedCred where
  | fromFile (f : String)
  | fromDefault
  | given (c : Nat)
  | falseCred
deriving DecidableEq, Repr

/-- Errors the constructors can raise. -/
inductive InitError where
  | duplicateCredentialArgs
deriving DecidableEq, Repr

/-- External collaborator invocations made during construction, in order.
`loadCredentialsFromFile` and `authDefault` resolve credentials (`authDefault`
may contact a metadata server); `createChannel` is an invocation of the channel
provider (`create_channel`, which may resolve credentials and perform
network/DNS work eagerly). -/
inductive ExtCall where
  | loadCredentialsFromFile (f : String)
  | authDefault
  | createChannel (host : String)
deriving DecidableEq, Repr

/-- State the base constructor leaves behind: `self._host` and
`self._credentials`.  `self._wrapped_methods` is the constant table
`_prep_wrapped_messages` above and is not repeated in the state. -/
structure BaseState where
  host : String
  credentials : ResolvedCred
deriving DecidableEq, Repr

/-- The host-port adjustment `if ":" not in host: host += ":443"`, written
identically in base.py (lines 73-75) and in the mutual-TLS branch of
grpc_asyncio.py (lines 149-153). -/
def adjustHost (host : String) : String :=
  if ':' ∈ host.data then host else host ++ ":443"

/-- `CloudSchedulerTransport.__init__` (base.py lines 47-99), together with the
ordered trace of external collaborator calls it makes.  Mirrors the source:
append `":443"` when the host has no colon; raise `DuplicateCredentialArgs`
when both `credentials` and `credentials_file` are truthy; otherwise load
credentials from the file when one is given (`is not None`), fall back to
`auth.default()` when `credentials is None`, and keep the argument as is
otherwise. -/
def baseInitT (host : String) (credentials : PyCred)
    (credentials_file : Option String) :
    Except InitError BaseState × List ExtCall :=
  let host' := adjustHost host
  if credentials.truthy && fileTruthy credentials_file then
    (.error .duplicateCredentialArgs, [])
  else
    match credentials_file with
    | some f =>
        (.ok { host := host', credentials := .fromFile f },
         [.loadCredentialsFromFile f])
    | none =>
        match credentials with
        | .noneCred => (.ok { host := host', credentials := .fromDefault }, [.authDefault])
        | .given c => (.ok { host := host', credentials := .given c }, [])
        | .falseSentinel => (.ok { host := host', credentials := .falseCred }, [])

/-- A gRPC AsyncIO channel: either supplied by the caller (`external`) or built
by `create_channel` (`internal`); the tag separates distinct channel objects. -/
inductive Channel where
  | external (id : Nat)
  | internal (id : Nat)
deriving DecidableEq, Repr

/-- Request serializers appearing in the stub table of grpc_asyncio.py, one per
request message type (`<Type>.serialize` references). -/
inductive ReqSer where
  | listJobsRequestSerialize
  | getJobRequestSerialize
  | createJobRequestSerialize
  | updateJobRequestSerialize
  | deleteJobRequestSerialize
  | pauseJobRequestSerialize
  | resumeJobRequestSerialize
  | runJobRequestSerialize
deriving DecidableEq, Repr

/-- Response deserializers appearing in the stub table of grpc_asyncio.py.
`job.Job` and `gcs_job.Job` are the same class (both import the `job` module),
so a single `jobDeserialize` stands for both. -/
inductive RespDeser where
  | listJobsResponseDeserialize
  | jobDeserialize
  | emptyFromString
deriving DecidableEq, Repr

/-- A callable produced by `self.grpc_channel.unary_unary(path,
request_serializer, response_deserializer)`.  `channel` records which channel
object built it; `uid` is a ghost tag giving each freshly constructed callable
a distinct identity. -/
structure Stub where
  path : String
  request_serializer : ReqSer
  response_deserializer : RespDeser
  channel : Channel
  uid : Nat
deriving DecidableEq, Repr

/-- The `self._stubs` dictionary key of each method (grpc_asyncio.py). -/
def stubKey : MethodName → String
  | .listJobs => "list_jobs"
  | .getJob => "get_job"
  | .createJob => "create_job"
  | .updateJob => "update_job"
  | .deleteJob => "delete_job"
  | .pauseJob => "pause_job"
  | .resumeJob => "resume_job"
  | .runJob => "run_job"

/-- The wire path literal of each stub (grpc_asyncio.py). -/
def wirePath : MethodName → String
  | .listJobs => "/google.cloud.scheduler.v1.CloudScheduler/ListJobs"
  | .getJob => "/google.cloud.scheduler.v1.CloudScheduler/GetJob"
  | .createJob => "/google.cloud.scheduler.v1.CloudScheduler/CreateJob"
  | .updateJob => "/google.cloud.scheduler.v1.CloudScheduler/UpdateJob"
  | .deleteJob => "/google.cloud.scheduler.v1.CloudScheduler/DeleteJob"
  | .pauseJob => "/google.cloud.scheduler.v1.CloudScheduler/PauseJob"
  | .resumeJob => "/google.cloud.scheduler.v1.CloudScheduler/ResumeJob"
  | .runJob => "/google.cloud.scheduler.v1.CloudScheduler/RunJob"

/-- The `<MethodName>` segment of each wire path. -/
def methodWireName : MethodName → String
  | .listJobs => "ListJobs"
  | .getJob => "GetJob"
  | .createJob => "CreateJob"
  | .updateJob => "UpdateJob"
  | .deleteJob => "DeleteJob"
  | .pauseJob => "PauseJob"
  | .resumeJob => "ResumeJob"
  | .runJob => "RunJob"

/-- The `request_serializer` of each stub (grpc_asyncio.py). -/
def reqSerializer : MethodName → ReqSer
  | .listJobs => .listJobsRequestSerialize
  | .getJob => .getJobRequestSerialize
  | .createJob => .createJobRequestSerialize
  | .updateJob => .updateJobRequestSerialize
  | .deleteJob => .deleteJobRequestSerialize
  | .pauseJob => .pauseJobRequestSerialize
  | .resumeJob => .resumeJobRequestSerialize
  | .runJob => .runJobRequestSerialize

/-- The `response_deserializer` of each stub (grpc_asyncio.py; `DeleteJob`
uses `empty.Empty.FromString`, `ListJobs` its response class, all others
`Job.deserialize`). -/
def respDeserializer : MethodName → RespDeser
  | .listJobs => .listJobsResponseDeserialize
  | .getJob => .jobDeserialize
  | .createJob => .jobDeserialize
  | .updateJob => .jobDeserialize
  | .deleteJob => .emptyFromString
  | .pauseJob => .jobDeserialize
  | .resumeJob => .jobDeserialize
  | .runJob => .jobDeserialize

/-- Dictionary lookup in `self._stubs` (`"name" in self._stubs` /
`self._stubs["name"]`). -/
def findStub (n : String) : List (String × Stub) → Option Stub
  | [] => none
  | (k, st) :: rest => if n = k then some st else findStub n rest

/-- State of a `CloudSchedulerGrpcAsyncIOTransport` instance.  `grpcChannel` is
the `_grpc_channel` attribute (`none` while unset); `stubs` is `self._stubs`;
`createCount` is a ghost counter of `create_channel` invocations made on
behalf of this instance; `fresh` is the ghost supply for callable/channel
identities. -/
structure AsyncState where
  host : String
  credentials : ResolvedCred
  grpcChannel : Option Channel
  stubs : List (String × Stub)
  createCount : Nat
  fresh : Nat
deriving DecidableEq, Repr

/-- Python truthiness of `api_mtls_endpoint` (a string; empty is falsy):
`some e` exactly when the branch `elif api_mtls_endpoint:` is taken. -/
def mtlsGiven : Option String → Option String
  | none => none
  | some e => if e = "" then none else some e

/-- `CloudSchedulerGrpcAsyncIOTransport.__init__` (grpc_asyncio.py lines
94-184), with the ordered trace of external collaborator calls.  The three
branches mirror the source: a truthy `channel` overwrites `credentials` with
`False` and stores the channel; otherwise a truthy `api_mtls_endpoint`
overrides the host (appending `":443"` when it has no colon) and builds a
channel through `create_channel` — before the base constructor and hence
before its duplicate-credentials check — otherwise no channel is set up yet.
Then the base constructor runs and `self._stubs = {}`.  The `scopes`,
`client_cert_source` and `quota_project_id` arguments only feed the external
credential/TLS collaborators and carry no modelled state; they are omitted. -/
def asyncInit (host : String) (credentials : PyCred)
    (credentials_file : Option String) (channel : Option Channel)
    (api_mtls_endpoint : Option String) :
    Except InitError AsyncState × List ExtCall :=
  match channel with
  | some ch =>
      match baseInitT host .falseSentinel credentials_file with
      | (.error e, tr) => (.error e, tr)
      | (.ok b, tr) =>
          (.ok { host := b.host, credentials := b.credentials,
                 grpcChannel := some ch, stubs := [],
                 createCount := 0, fresh := 0 }, tr)
  | none =>
      match mtlsGiven api_mtls_endpoint with
      | some e =>
          let host' := adjustHost e
          match baseInitT host' credentials credentials_file with
          | (.error err, tr) => (.error err, ExtCall.createChannel host' :: tr)
          | (.ok b, tr) =>
              (.ok { host := b.host, credentials := b.credentials,
                     grpcChannel := some (.internal 0), stubs := [],
                     createCount := 1, fresh := 1 },
               ExtCall.createChannel host' :: tr)
      | none =>
          match baseInitT host credentials credentials_file with
          | (.error e, tr) => (.error e, tr)
          | (.ok b, tr) =>
              (.ok { host := b.host, credentials := b.credentials,
                     grpcChannel := none, stubs := [],
                     createCount := 0, fresh := 0 }, tr)

/-- The `grpc_channel` property accessor (grpc_asyncio.py lines 186-201):
return the cached channel if `_grpc_channel` is set, otherwise create one via
`create_channel` and cache it. -/
def grpc_channel (s : AsyncState) : Channel × AsyncState :=
  match s.grpcChannel with
  | some ch => (ch, s)
  | none =>
      let ch := Channel.internal s.fresh
      (ch, { s with grpcChannel := some ch,
                    createCount := s.createCount + 1, fresh := s.fresh + 1 })

/-- The stub property accessors (grpc_asyncio.py lines 203-441), one generic
function over the method name since all eight bodies are identical in shape:
if the key is not in `self._stubs`, bind a fresh callable from
`self.grpc_channel.unary_unary(path, serializer, deserializer)` and store it;
return the cached entry. -/
def getStub (m : MethodName) (s : AsyncState) : Stub × AsyncState :=
  match findStub (stubKey m) s.stubs with
  | some st => (st, s)
  | none =>
      let p := grpc_channel s
      let st : Stub :=
        { path := wirePath m, request_serializer := reqSerializer m,
          response_deserializer := respDeserializer m,
          channel := p.1, uid := p.2.fresh }
      (st, { p.2 with stubs := (stubKey m, st) :: p.2.stubs,
                      fresh := p.2.fresh + 1 })

/-- A sequence of stub requests against one transport instance. -/
def runRequests : List MethodName → AsyncState → AsyncState
  | [], s => s
  | m :: ms, s => runRequests ms (getStub m s).2

/-! ### Helper lemmas -/

theorem stubKey_inj {m m' : MethodName} (h : stubKey m = stubKey m') : m = m' := by
  cases m <;> cases m' <;> first | rfl | (exact absurd h (by decide))

theorem findStub_none_not_mem {n : String} :
    ∀ {l : List (String × Stub)} (st : Stub), findStub n l = none → (n, st) ∉ l := by
  intro l
  induction l with
  | nil => intro _ _ hmem; simp at hmem
  | cons p rest ih =>
    obtain ⟨k, st'⟩ := p
    intro st h hmem
    rw [findStub] at h
    by_cases hk : n = k
    · simp [hk] at h
    · rw [if_neg hk] at h
      rcases List.mem_cons.mp hmem with h1 | h1
      · exact hk (congrArg Prod.fst h1)
      · exact ih st h h1

theorem grpc_channel_stubs (s : AsyncState) : ((grpc_channel s).2).stubs = s.stubs := by
  cases h : s.grpcChannel <;> simp [grpc_channel, h]

theorem grpc_channel_host (s : AsyncState) : ((grpc_channel s).2).host = s.host := by
  cases h : s.grpcChannel <;> simp [grpc_channel, h]

theorem grpc_channel_of_some {s : AsyncState} {ch : Channel}
    (h : s.grpcChannel = some ch) : grpc_channel s = (ch, s) := by
  simp [grpc_channel, h]

theorem getStub_host (m : MethodName) (s : AsyncState) :
    ((getStub m s).2).host = s.host := by
  cases h : findStub (stubKey m) s.stubs with
  | some st => simp [getStub, h]
  | none => simp [getStub, h, grpc_channel_host]

theorem getStub_found (m : MethodName) (s : AsyncState) :
    findStub (stubKey m) ((getStub m s).2).stubs = some (getStub m s).1 := by
  cases h : findStub (stubKey m) s.stubs with
  | some st => simp [getStub, h]
  | none => simp [getStub, h, findStub]

theorem getStub_persist {n : String} {st : Stub} (m : MethodName) (s : AsyncState)
    (h : findStub n s.stubs = some st) :
    findStub n ((getStub m s).2).stubs = some st := by
  cases hm : findStub (stubKey m) s.stubs with
  | some st' => simpa [getStub, hm] using h
  | none =>
    have hne : n ≠ stubKey m := by
      intro he; rw [he, hm] at h; exact Option.noConfusion h
    simp [getStub, hm, findStub, hne, grpc_channel_stubs, h]

theorem getStub_domain {n : String} {st : Stub} (m : MethodName) (s : AsyncState)
    (h : findStub n ((getStub m s).2).stubs = some st) :
    n = stubKey m ∨ findStub n s.stubs = some st := by
  cases hm : findStub (stubKey m) s.stubs with
  | some st' => right; simpa [getStub, hm] using h
  | none =>
    by_cases hn : n = stubKey m
    · left; exact hn
    · right
      simp [getStub, hm, findStub, hn, grpc_channel_stubs] at h
      exact h

theorem getStub_keys_nodup (m : MethodName) (s : AsyncState)
    (h : (s.stubs.map Prod.fst).Nodup) :
    ((((getStub m s).2).stubs).map Prod.fst).Nodup := by
  cases hm : findStub (stubKey m) s.stubs with
  | some st => simpa [getStub, hm] using h
  | none =>
    simp [getStub, hm, grpc_channel_stubs]
    exact ⟨fun st => findStub_none_not_mem st hm, h⟩

theorem runRequests_host (ms : List MethodName) (s : AsyncState) :
    (runRequests ms s).host = s.host := by
  induction ms generalizing s with
  | nil => rfl
  | cons m ms ih => rw [runRequests, ih, getStub_host]

theorem runRequests_persist {n : String} {st : Stub}
    (ms : List MethodName) (s : AsyncState)
    (h : findStub n s.stubs = some st) :
    findStub n (runRequests ms s).stubs = some st := by
  induction ms generalizing s with
  | nil => exact h
  | cons m ms ih => exact ih _ (getStub_persist m s h)

theorem runRequests_keys_nodup (ms : List MethodName) (s : AsyncState)
    (h : (s.stubs.map Prod.fst).Nodup) :
    (((runRequests ms s).stubs).map Prod.fst).Nodup := by
  induction ms generalizing s with
  | nil => exact h
  | cons m ms ih => exact ih _ (getStub_keys_nodup m s h)

theorem runRequests_domain {n : String} {st : Stub}
    (ms : List MethodName) (s : AsyncState)
    (h : findStub n (runRequests ms s).stubs = some st) :
    n ∈ ms.map stubKey ∨ findStub n s.stubs = some st := by
  induction ms generalizing s with
  | nil => right; exact h
  | cons m ms ih =>
    rcases ih ((getStub m s).2) h with h1 | h1
    · left; simp [h1]
    · rcases getStub_domain m s h1 with h2 | h2
      · left; simp [h2]
      · right; exact h2

/-- Invariant tying every cached stub (and the cached channel) of a transport
instance to one channel `ch`. -/
def ChanInv (ch : Channel) (s : AsyncState) : Prop :=
  s.grpcChannel = some ch ∧
  ∀ n st, findStub n s.stubs = some st → st.channel = ch

theorem getStub_chanInv {ch : Channel} (m : MethodName) (s : AsyncState)
    (h : ChanInv ch s) :
    ChanInv ch ((getStub m s).2) ∧
    ((getStub m s).2).createCount = s.createCount ∧
    (getStub m s).1.channel = ch := by
  obtain ⟨hch, hst⟩ := h
  cases hm : findStub (stubKey m) s.stubs with
  | some st =>
    refine ⟨⟨?_, ?_⟩, ?_, ?_⟩ <;> simp [getStub, hm]
    · exact hch
    · exact hst
    · exact hst _ _ hm
  | none =>
    have hgc := grpc_channel_of_some hch
    refine ⟨⟨?_, ?_⟩, ?_, ?_⟩
    · simpa [getStub, hm, hgc] using hch
    · intro n st hfind
      simp only [getStub, hm, hgc] at hfind
      rw [findStub] at hfind
      by_cases hn : n = stubKey m
      · rw [if_pos hn] at hfind
        cases hfind
        rfl
      · rw [if_neg hn] at hfind
        exact hst _ _ hfind
    · simp [getStub, hm, hgc]
    · simp [getStub, hm, hgc]

theorem runRequests_chanInv {ch : Channel} (ms : List MethodName) (s : AsyncState)
    (h : ChanInv ch s) :
    ChanInv ch (runRequests ms s) ∧
    (runRequests ms s).createCount = s.createCount := by
  induction ms generalizing s with
  | nil => exact ⟨h, rfl⟩
  | cons m ms ih =>
    obtain ⟨h1, h2, _⟩ := getStub_chanInv m s h
    obtain ⟨h3, h4⟩ := ih _ h1
    exact ⟨h3, by rw [runRequests, h4, h2]⟩

/-- Invariant: every cached stub is bound to its method's wire path,
request serializer and response deserializer. -/
def StubsWF (l : List (String × Stub)) : Prop :=
  ∀ m st, findStub (stubKey m) l = some st →
    st.path = wirePath m ∧ st.request_serializer = reqSerializer m ∧
    st.response_deserializer = respDeserializer m

theorem stubsWF_nil : StubsWF [] := by
  intro m st h
  simp [findStub] at h

theorem getStub_wf (m : MethodName) (s : AsyncState) (h : StubsWF s.stubs) :
    StubsWF ((getStub m s).2).stubs ∧
    ((getStub m s).1.path = wirePath m ∧
     (getStub m s).1.request_serializer = reqSerializer m ∧
     (getStub m s).1.response_deserializer = respDeserializer m) := by
  cases hm : findStub (stubKey m) s.stubs with
  | some st =>
    refine ⟨?_, ?_⟩ <;> simp [getStub, hm]
    · exact h
    · exact h _ _ hm
  | none =>
    refine ⟨?_, ?_⟩ <;> simp [getStub, hm, grpc_channel_stubs]
    intro m' st' hfind
    rw [findStub] at hfind
    by_cases hn : stubKey m' = stubKey m
    · rw [if_pos hn] at hfind
      cases stubKey_inj hn
      cases hfind
      exact ⟨rfl, rfl, rfl⟩
    · rw [if_neg hn] at hfind
      exact h _ _ hfind

theorem runRequests_wf (ms : List MethodName) (s : AsyncState)
    (h : StubsWF s.stubs) : StubsWF (runRequests ms s).stubs := by
  induction ms generalizing s with
  | nil => exact h
  | cons m ms ih => exact ih _ (getStub_wf m s h).1

theorem wirePath_eq (m : MethodName) :
    wirePath m = "/google.cloud.scheduler.v1.CloudScheduler/" ++ methodWireName m := by
  cases m <;> rfl

/-- Every run of the retry loop makes at least one attempt past index `i`. -/
theorem retryRun_attempts_ge (pred : ExcKind → Bool) (o : Nat → Outcome) :
    ∀ (b i : Nat), i + 1 ≤ (retryRun pred o b i).2 := by
  intro b
  induction b with
  | zero =>
    intro i
    rw [retryRun]
    cases o i with
    | ok v => simp
    | fail k => by_cases hp : pred k <;> simp [hp]
  | succ b ih =>
    intro i
    rw [retryRun]
    cases o i with
    | ok v => simp
    | fail k =>
      by_cases hp : pred k
      · simp only [hp, if_true]
        exact le_trans (Nat.le_succ _) (ih (i + 1))
      · simp [hp]

/-- A failure the predicate rejects stops the loop at once. -/
theorem retryRun_nonretryable (pred : ExcKind → Bool) (o : Nat → Outcome)
    (b i : Nat) (k : ExcKind) (ho : o i = .fail k) (hp : pred k = false) :
    retryRun pred o b i = (.fail k, i + 1) := by
  cases b <;> rw [retryRun] <;> simp [ho, hp]

/-- Extracting the stored host from a successful run of the base
constructor. -/
theorem baseInitT_ok_host {host : String} {cred : PyCred} {file : Option String}
    {s : BaseState} {tr : List ExtCall}
    (h : baseInitT host cred file = (.ok s, tr)) :
    s.host = adjustHost host := by
  unfold baseInitT at h
  split at h
  · simp at h
  · cases file with
    | some f =>
      rw [Prod.mk.injEq] at h
      cases h.1
      rfl
    | none =>
      cases cred <;> rw [Prod.mk.injEq] at h <;> (cases h.1; rfl)

theorem adjustHost_contains (host : String) : ':' ∈ (adjustHost host).data := by
  unfold adjustHost
  by_cases hh : ':' ∈ host.data
  · rw [if_pos hh]; exact hh
  · rw [if_neg hh, String.data_append]
    exact List.mem_append_right _ (by decide)

theorem retryRun_retryable_step (pred : ExcKind → Bool) (o : Nat → Outcome)
    (b : Nat) (k : ExcKind) (ho : o 0 = .fail k) (hp : pred k = true) :
    2 ≤ (retryRun pred o (b + 1) 0).2 := by
  rw [retryRun, ho]
  simp only [hp, if_true]
  exact retryRun_attempts_ge pred o b 1

/-! ### Claim theorems -/

/-- C1: each of ListJobs, GetJob, DeleteJob, PauseJob and ResumeJob is wrapped
with a retry policy of initial backoff 0.1 s, maximum backoff 60 s, multiplier
1.3, over the retryable kinds service-unavailable and deadline-exceeded, and a
default timeout of 600 s. -/
theorem retryable_methods_policy_table :
    ((_prep_wrapped_messages .listJobs).default_retry =
      some { initial := 0.1, maximum := 60.0, multiplier := 1.3,
             predicate := [.serviceUnavailable, .deadlineExceeded] } ∧
     (_prep_wrapped_messages .listJobs).default_timeout = 600.0) ∧
    ((_prep_wrapped_messages .getJob).default_retry =
      some { initial := 0.1, maximum := 60.0, multiplier := 1.3,
             predicate := [.serviceUnavailable, .deadlineExceeded] } ∧
     (_prep_wrapped_messages .getJob).default_timeout = 600.0) ∧
    ((_prep_wrapped_messages .deleteJob).default_retry =
      some { initial := 0.1, maximum := 60.0, multiplier := 1.3,
             predicate := [.serviceUnavailable, .deadlineExceeded] } ∧
     (_prep_wrapped_messages .deleteJob).default_timeout = 600.0) ∧
    ((_prep_wrapped_messages .pauseJob).default_retry =
      some { initial := 0.1, maximum := 60.0, multiplier := 1.3,
             predicate := [.serviceUnavailable, .deadlineExceeded] } ∧
     (_prep_wrapped_messages .pauseJob).default_timeout = 600.0) ∧
    ((_prep_wrapped_messages .resumeJob).default_retry =
      some { initial := 0.1, maximum := 60.0, multiplier := 1.3,
             predicate := [.serviceUnavailable, .deadlineExceeded] } ∧
     (_prep_wrapped_messages .resumeJob).default_timeout = 600.0) ∧
    ((0.1 : ℚ) = 1 / 10 ∧ (60.0 : ℚ) = 60 ∧ (1.3 : ℚ) = 13 / 10 ∧
     (600.0 : ℚ) = 600) := by
  refine ⟨⟨rfl, rfl⟩, ⟨rfl, rfl⟩, ⟨rfl, rfl⟩, ⟨rfl, rfl⟩, ⟨rfl, rfl⟩,
    ?_, ?_, ?_, ?_⟩ <;> norm_num

/-- C2: CreateJob, UpdateJob and RunJob are wrapped with no retry policy and a
600 s default timeout, so invoking any of them makes exactly one attempt and
returns that attempt's outcome unchanged — in particular a single failure of a
retryable kind propagates immediately with zero additional attempts. -/
theorem non_retryable_methods_single_attempt :
    (_prep_wrapped_messages .createJob =
      { default_retry := none, default_timeout := 600.0 }) ∧
    (_prep_wrapped_messages .updateJob =
      { default_retry := none, default_timeout := 600.0 }) ∧
    (_prep_wrapped_messages .runJob =
      { default_retry := none, default_timeout := 600.0 }) ∧
    ((600.0 : ℚ) = 600) ∧
    (∀ (b : Nat) (o : Nat → Outcome),
      invokeWrapped (_prep_wrapped_messages .createJob) b o = (o 0, 1)) ∧
    (∀ (b : Nat) (o : Nat → Outcome),
      invokeWrapped (_prep_wrapped_messages .updateJob) b o = (o 0, 1)) ∧
    (∀ (b : Nat) (o : Nat → Outcome),
      invokeWrapped (_prep_wrapped_messages .runJob) b o = (o 0, 1)) :=
  ⟨rfl, rfl, rfl, by norm_num,
   fun _ _ => rfl, fun _ _ => rfl, fun _ _ => rfl⟩

/-- C3: on every retry-enabled method the retryable predicate holds exactly
for service-unavailable and deadline-exceeded; a first-attempt failure of any
other kind propagates after exactly one attempt, while a first-attempt failure
of a retryable kind leads to at least a second attempt whenever budget
remains. -/
theorem retryable_predicate_exact (m : MethodName) (r : Retry)
    (h : (_prep_wrapped_messages m).default_retry = some r) :
    (∀ k, if_exception_type r.predicate k = true ↔
        (k = ExcKind.serviceUnavailable ∨ k = ExcKind.deadlineExceeded)) ∧
    (∀ (b : Nat) (o : Nat → Outcome) (k : ExcKind), o 0 = .fail k →
        if_exception_type r.predicate k = false →
        invokeWrapped (_prep_wrapped_messages m) b o = (.fail k, 1)) ∧
    (∀ (b : Nat) (o : Nat → Outcome) (k : ExcKind), o 0 = .fail k →
        if_exception_type r.predicate k = true →
        2 ≤ (invokeWrapped (_prep_wrapped_messages m) (b + 1) o).2) := by
  cases m <;> simp only [_prep_wrapped_messages] at h <;>
    first
      | exact Option.noConfusion h
      | (injection h with h'
         subst h'
         refine ⟨fun k => by cases k <;> decide, ?_, ?_⟩
         · intro b o k ho hp
           simpa [invokeWrapped, _prep_wrapped_messages] using
             retryRun_nonretryable _ o b 0 k ho hp
         · intro b o k ho hp
           simpa [invokeWrapped, _prep_wrapped_messages] using
             retryRun_retryable_step _ o b k ho hp)

/-- Witness for C3 at ListJobs: the predicate of the attached retry policy
rejects not-found and accepts service-unavailable. -/
theorem retryable_predicate_exact_witness :
    (if_exception_type
        [ExcKind.serviceUnavailable, ExcKind.deadlineExceeded] ExcKind.notFound
          = true ↔
      (ExcKind.notFound = ExcKind.serviceUnavailable ∨
       ExcKind.notFound = ExcKind.deadlineExceeded)) :=
  (retryable_predicate_exact .listJobs
    { initial := 0.1, maximum := 60.0, multiplier := 1.3,
      predicate := [.serviceUnavailable, .deadlineExceeded] } rfl).1 .notFound

/-- A cached entry is returned as is. -/
theorem getStub_cached {m : MethodName} {s : AsyncState} {st : Stub}
    (h : findStub (stubKey m) s.stubs = some st) : getStub m s = (st, s) := by
  simp [getStub, h]

/-- C4 (counterexample): constructing the async transport with both
credentials and a credentials file AND a mutual-TLS endpoint (no pre-built
channel) does raise the duplicate-credentials error, but only after one
channel-provider invocation — not before any network activity; and with an
empty (yet not-`None`) credentials-file string supplied alongside
credentials, no error is raised at all and credentials are loaded from the
empty path. -/
theorem duplicate_credentials_check_counterexample :
    (asyncInit "cloudscheduler.googleapis.com" (.given 0) (some "creds.json")
        none (some "mtls.example.com")
      = (.error .duplicateCredentialArgs,
         [.createChannel "mtls.example.com:443"])) ∧
    ((asyncInit "cloudscheduler.googleapis.com" (.given 0) (some "creds.json")
        none (some "mtls.example.com")).2 ≠ []) ∧
    (baseInitT "cloudscheduler.googleapis.com" (.given 0) (some "")
      = (.ok { host := "cloudscheduler.googleapis.com:443",
               credentials := .fromFile "" },
         [.loadCredentialsFromFile ""])) :=
  ⟨rfl, by decide, rfl⟩

/-- C4 (amended): when both a credentials object and a non-empty
credentials-file path are supplied and neither a pre-built channel nor a
mutual-TLS endpoint intervenes, construction fails with the
duplicate-credentials error before any external-collaborator call and no
state is produced; with a mutual-TLS endpoint the same error is still raised
and no state produced, but only after one channel-provider invocation. -/
theorem duplicate_credentials_check_amended (host : String) (c : Nat)
    (f : String) (hf : f ≠ "") :
    (baseInitT host (.given c) (some f)
        = (.error .duplicateCredentialArgs, [])) ∧
    (asyncInit host (.given c) (some f) none none
        = (.error .duplicateCredentialArgs, [])) ∧
    (∀ e : String, e ≠ "" →
      asyncInit host (.given c) (some f) none (some e)
        = (.error .duplicateCredentialArgs,
           [.createChannel (adjustHost e)])) := by
  have hb : ∀ h0 : String, baseInitT h0 (.given c) (some f)
      = (.error .duplicateCredentialArgs, []) := by
    intro h0
    simp [baseInitT, PyCred.truthy, fileTruthy, hf]
  refine ⟨hb host, ?_, ?_⟩
  · simp [asyncInit, mtlsGiven, hb host]
  · intro e he
    simp [asyncInit, mtlsGiven, he, hb (adjustHost e)]

/-- Witness for the amended C4 at a concrete input. -/
theorem duplicate_credentials_check_witness :
    baseInitT "cloudscheduler.googleapis.com" (.given 0) (some "creds.json")
      = (.error .duplicateCredentialArgs, []) :=
  (duplicate_credentials_check_amended "cloudscheduler.googleapis.com" 0
    "creds.json" (by decide)).1

/-- C5: starting from a freshly constructed transport (empty stub cache),
after any sequence of stub requests the cache keys are pairwise distinct
(at most one construction per method name), only requested method names are
present (lazy population), and an entry, once present, survives any further
sequence of requests unchanged (never invalidated). -/
theorem stub_cache_lazy_at_most_once (s0 : AsyncState) (h0 : s0.stubs = [])
    (ms : List MethodName) :
    ((((runRequests ms s0).stubs).map Prod.fst).Nodup) ∧
    (∀ n st, findStub n (runRequests ms s0).stubs = some st →
        n ∈ ms.map stubKey) ∧
    (∀ n st, findStub n (runRequests ms s0).stubs = some st →
        ∀ ms', findStub n (runRequests ms' (runRequests ms s0)).stubs = some st) := by
  refine ⟨runRequests_keys_nodup ms s0 (by simp [h0]), ?_, ?_⟩
  · intro n st h
    rcases runRequests_domain ms s0 h with h1 | h1
    · exact h1
    · rw [h0] at h1
      simp [findStub] at h1
  · intro n st h ms'
    exact runRequests_persist ms' _ h

/-- Witness for C5: one request against a fresh transport leaves pairwise
distinct cache keys. -/
theorem stub_cache_lazy_witness :
    (((runRequests [MethodName.getJob]
        { host := "h:443", credentials := .fromDefault, grpcChannel := none,
          stubs := [], createCount := 0, fresh := 0 }).stubs).map
      Prod.fst).Nodup :=
  (stub_cache_lazy_at_most_once _ rfl [.getJob]).1

/-- C6: requesting the same method's stub twice returns the identical cached
callable and leaves the state untouched — the second request does not
construct a second callable. -/
theorem getStub_twice_identical (m : MethodName) (s : AsyncState) :
    getStub m ((getStub m s).2) = ((getStub m s).1, (getStub m s).2) :=
  getStub_cached (getStub_found m s)

/-- C7: constructing the async transport with a pre-built channel stores that
channel, performs no channel creation, and any sequence of stub requests
afterwards still creates no channel, keeps the supplied channel cached, and
binds every cached stub to the supplied channel. -/
theorem prebuilt_channel_no_create (host : String) (cred : PyCred)
    (file : Option String) (ch : Channel) (mtls : Option String)
    (s : AsyncState) (tr : List ExtCall)
    (h : asyncInit host cred file (some ch) mtls = (.ok s, tr))
    (ms : List MethodName) :
    s.createCount = 0 ∧ s.grpcChannel = some ch ∧ s.stubs = [] ∧
    (runRequests ms s).createCount = 0 ∧
    (runRequests ms s).grpcChannel = some ch ∧
    (∀ n st, findStub n (runRequests ms s).stubs = some st →
        st.channel = ch) := by
  have hs : s.grpcChannel = some ch ∧ s.stubs = [] ∧ s.createCount = 0 := by
    unfold asyncInit at h
    cases hb : baseInitT host .falseSentinel file with
    | mk r t =>
      rw [hb] at h
      cases r with
      | error e => simp at h
      | ok b =>
        rw [Prod.mk.injEq] at h
        cases h.1
        exact ⟨rfl, rfl, rfl⟩
  obtain ⟨h1, h2, h3⟩ := hs
  have hinv : ChanInv ch s := by
    refine ⟨h1, ?_⟩
    intro n st hf
    rw [h2] at hf
    simp [findStub] at hf
  obtain ⟨⟨h4, h5⟩, h6⟩ := runRequests_chanInv ms s hinv
  exact ⟨h3, h1, h2, by rw [h6, h3], h4, h5⟩

/-- Witness for C7: a transport built on a supplied channel, after one stub
request, has made no channel creation. -/
theorem prebuilt_channel_no_create_witness :
    (runRequests [MethodName.listJobs]
      { host := "h:443", credentials := .falseCred,
        grpcChannel := some (.external 5), stubs := [],
        createCount := 0, fresh := 0 }).createCount = 0 :=
  (prebuilt_channel_no_create "h" .noneCred none (.external 5) none _ _ rfl
    [.listJobs]).2.2.2.1

/-- C8: against a fresh transport, after any sequence of requests, the stub
obtained for a method is bound to the wire path
`/google.cloud.scheduler.v1.CloudScheduler/<MethodName>` with that method's
request serializer and response deserializer. -/
theorem stub_wire_binding (s0 : AsyncState) (h0 : s0.stubs = [])
    (ms : List MethodName) (m : MethodName) :
    ((getStub m (runRequests ms s0)).1).path =
      "/google.cloud.scheduler.v1.CloudScheduler/" ++ methodWireName m ∧
    ((getStub m (runRequests ms s0)).1).request_serializer = reqSerializer m ∧
    ((getStub m (runRequests ms s0)).1).response_deserializer
      = respDeserializer m := by
  have hwf : StubsWF s0.stubs := by
    rw [h0]
    exact stubsWF_nil
  have hwf2 := runRequests_wf ms s0 hwf
  obtain ⟨-, hp, hs, hd⟩ := getStub_wf m (runRequests ms s0) hwf2
  exact ⟨by rw [hp, wirePath_eq], hs, hd⟩

/-- Witness for C8: the ListJobs stub of a fresh transport is bound to the
ListJobs wire path. -/
theorem stub_wire_binding_witness :
    ((getStub .listJobs (runRequests []
      { host := "h:443", credentials := .fromDefault, grpcChannel := none,
        stubs := [], createCount := 0, fresh := 0 })).1).path =
      "/google.cloud.scheduler.v1.CloudScheduler/" ++ methodWireName .listJobs :=
  (stub_wire_binding _ rfl [] .listJobs).1

/-- C9: every successful run of the base constructor stores a host that
carries a colon-separated port — the given host unchanged when it already has
one, otherwise with `":443"` appended; the default host is stored as
`cloudscheduler.googleapis.com:443`; and no stub request or channel access
ever changes the stored host. -/
theorem host_always_has_port (host : String) (cred : PyCred)
    (file : Option String) (s : BaseState) (tr : List ExtCall)
    (h : baseInitT host cred file = (.ok s, tr)) :
    (':' ∈ s.host.data) ∧
    (':' ∉ host.data → s.host = host ++ ":443") ∧
    (':' ∈ host.data → s.host = host) ∧
    (∀ (a : AsyncState) (m : MethodName), ((getStub m a).2).host = a.host) ∧
    (∀ a : AsyncState, ((grpc_channel a).2).host = a.host) ∧
    (baseInitT "cloudscheduler.googleapis.com" .noneCred none =
      (.ok { host := "cloudscheduler.googleapis.com:443",
             credentials := .fromDefault }, [.authDefault])) := by
  have hh := baseInitT_ok_host h
  refine ⟨?_, ?_, ?_, fun a m => getStub_host m a, grpc_channel_host, rfl⟩
  · rw [hh]
    exact adjustHost_contains host
  · intro hn
    rw [hh]
    unfold adjustHost
    rw [if_neg hn]
  · intro hy
    rw [hh]
    unfold adjustHost
    rw [if_pos hy]

/-- Witness for C9 at a concrete host without a port. -/
theorem host_always_has_port_witness :
    ':' ∈ ("example.com:443" : String).data :=
  (host_always_has_port "example.com" .noneCred none
    { host := "example.com:443", credentials := .fromDefault }
    [.authDefault] rfl).1

/-- C10: constructing the async transport with a pre-built channel together
with both a credentials object and a credentials-file path raises no
duplicate-credentials error: the channel branch overwrites `credentials` with
`False` before the base constructor's check, which therefore passes, and
credentials are loaded from the file anyway. -/
theorem channel_suppresses_duplicate_check (host : String) (c : Nat)
    (f : String) (ch : Channel) (mtls : Option String) :
    asyncInit host (.given c) (some f) (some ch) mtls
      = (.ok { host := adjustHost host, credentials := .fromFile f,
               grpcChannel := some ch, stubs := [],
               createCount := 0, fresh := 0 },
         [.loadCredentialsFromFile f]) := by
  simp [asyncInit, baseInitT, PyCred.truthy]

end Scheduler
